import Mathlib

set_option maxRecDepth 100000

/-!
Shallow embedding of the ELI5.ai backend (src/backend/main.py).

The whole program is a single FastAPI module: a `/health` endpoint, a root
info endpoint, and a `POST /explain` handler `explain_topic`.  We embed the
request/response data model and the handler as pure Lean functions.

Modelling conventions:
* The OpenAI client handle (`client = OpenAI(...) if api_key else None`)
  is modelled by a boolean `clientConfigured` (true exactly when the
  `OPENAI_API_KEY` environment variable was set at process start).
* The single outbound completion call is modelled by an oracle value
  `CompletionOutcome`: what the external API would do if it were invoked
  (return text and a total token count, or raise an exception carrying a
  message).  The handler records the exact arguments it passes to the call
  in an `Option CompletionCall` field; `none` means no network call was
  attempted on that code path.
* Python `str.strip()` is modelled by `pyStrip` (drop leading and trailing
  characters satisfying `Char.isWhitespace`, i.e. ASCII whitespace).
* Python float arithmetic in the cost f-string
  `f"${tokens * 0.0000015:.6f}"` is modelled exactly at the IEEE-754
  binary64 level: the literal `0.0000015` denotes the double
  `7083549724304468 / 2^72` (the exact value `15 * 2^72 / 10^7 =
  7083549724304467.82...` rounds up to that 53-bit significand), the
  product `tokens * 0.0000015` rounds the exact product to 53 significant
  bits to nearest, ties to even (`prodDouble`), and `%.6f` correctly
  rounds the decimal expansion of the resulting double to six places,
  ties to even (`formatCost`).  For `tokens < 2^53` the int-to-double
  conversion of `tokens` is exact and the product is far from the
  overflow and subnormal ranges, so `formatCost` is the exact string the
  program prints.
* An `HTTPException(status_code, detail)` raised by the handler is the
  `ExplainResult.httpError status detail` constructor; a normal return is
  `ExplainResult.ok`.
-/

/-- Python `str.strip()`: remove leading and trailing whitespace. -/
def pyStrip (s : String) : String :=
  String.mk (((s.data.dropWhile Char.isWhitespace).reverse.dropWhile Char.isWhitespace).reverse)

/-- Request body of `POST /explain` (pydantic model `ExplainRequest`):
`topic: str`, `complexity: str = "eli5"`. -/
structure ExplainRequest where
  topic : String
  complexity : String := "eli5"
deriving DecidableEq

/-- One entry of the `complexity_configs` dictionary. -/
structure ComplexityConfig where
  instruction : String
  max_tokens : Nat
  temperature : Rat
deriving DecidableEq

/-- `complexity_configs["eli5"]`. -/
def eli5_config : ComplexityConfig :=
  { instruction := "Explain in 5-10 sentences using simple words a 5-year-old would understand. Use a fun analogy."
    max_tokens := 150
    temperature := 0.7 }

/-- `complexity_configs["eli10"]`. -/
def eli10_config : ComplexityConfig :=
  { instruction := "Explain in 3-4 sentences for a 10-year-old. Use clear, relatable examples. Break into 2 short paragraphs."
    max_tokens := 200
    temperature := 0.7 }

/-- `complexity_configs["teen"]`. -/
def teen_config : ComplexityConfig :=
  { instruction := "Explain in 4-5 sentences for a teenager. Include some detail but keep it interesting. Use 2 paragraphs."
    max_tokens := 250
    temperature := 0.7 }

/-- `complexity_configs["college"]`. -/
def college_config : ComplexityConfig :=
  { instruction := "Provide a concise college-level explanation in 5-6 sentences. Use proper terminology. Structure in 2-3 short paragraphs."
    max_tokens := 300
    temperature := 0.6 }

/-- `complexity_configs["expert"]`. -/
def expert_config : ComplexityConfig :=
  { instruction := "Provide an expert-level technical explanation using advanced terminology, academic language, and field-specific jargon. Be precise and sophisticated. 3 paragraphs max. Sound impressive and authoritative."
    max_tokens := 350
    temperature := 0.5 }

/-- `complexity_configs.get(request.complexity, complexity_configs["eli5"])`:
dictionary lookup over the five fixed keys, defaulting to the `eli5` entry
for any other key. -/
def getConfig (complexity : String) : ComplexityConfig :=
  if complexity = "eli5" then eli5_config
  else if complexity = "eli10" then eli10_config
  else if complexity = "teen" then teen_config
  else if complexity = "college" then college_config
  else if complexity = "expert" then expert_config
  else eli5_config

/-- Left-pad a string with the character `'0'` to length `n`. -/
def padLeftZeros (s : String) (n : Nat) : String :=
  String.mk (List.replicate (n - s.length) '0') ++ s

/-- Bit length of `n`, computed with explicit fuel so that it is
structurally recursive and the kernel can evaluate it; correct whenever
`n < 2^fuel`. -/
def bitLen : Nat → Nat → Nat
  | 0, _ => 0
  | fuel + 1, n => if n = 0 then 0 else bitLen fuel (n / 2) + 1

/-- Numerator, over the fixed denominator `2^72`, of the IEEE-754 binary64
value of the literal `0.0000015`: the exact value `15 * 2^72 / 10^7 =
7083549724304467.82...` rounds to nearest to this 53-bit significand. -/
def d0Num : Nat := 7083549724304468

/-- Round the nonnegative rational `a / b` (with `b > 0`) to the nearest
integer, ties to even. -/
def roundRatHalfEven (a b : Nat) : Nat :=
  let q := a / b
  let r := a % b
  if b < 2 * r then q + 1
  else if 2 * r < b then q
  else if q % 2 = 1 then q + 1 else q

/-- The IEEE-754 binary64 product `float(totalTokens) * 0.0000015` the
code computes, returned as its exact numerator over the fixed denominator
`2^72`: the exact product `totalTokens * d0Num / 2^72` is rounded to 53
significant bits, to nearest, ties to even.  For `totalTokens < 2^53` the
int-to-double conversion of `totalTokens` is exact and the product is far
from the binary64 overflow and subnormal ranges, so this is the exact
value of the double the program computes. -/
def prodDouble (totalTokens : Nat) : Nat :=
  let exactNum := totalTokens * d0Num
  let b := bitLen 4096 exactNum - 1
  if b ≤ 52 then exactNum
  else
    let shift := b - 52
    let q := exactNum / 2 ^ shift
    let r := exactNum % 2 ^ shift
    let half := 2 ^ (shift - 1)
    let m := if half < r then q + 1 else if r < half then q else if q % 2 = 1 then q + 1 else q
    m * 2 ^ shift

/-- The cost string `f"${response.usage.total_tokens * 0.0000015:.6f}"`:
the binary64 product, whose exact value is `prodDouble totalTokens / 2^72`,
correctly rounded to six decimal places (Python `%.6f` rounds the decimal
expansion of the double to nearest, ties to even) and rendered with six
digits after the decimal point. -/
def formatCost (totalTokens : Nat) : String :=
  let micro := roundRatHalfEven (prodDouble totalTokens * 1000000) (2 ^ 72)
  "$" ++ toString (micro / 1000000) ++ "." ++ padLeftZeros (toString (micro % 1000000)) 6

/-- Modelled from the spec's words ("cost equals tokens_used * 0.0000015,
formatted to exactly 6 decimal places"), for comparison with `formatCost`:
round `n / 10` to the nearest integer, ties to even — the 7th decimal
digit of the exact decimal value `tokens * 15 / 10^7` is `n % 10` for
`n = tokens * 15`. -/
def roundHalfEvenDiv10 (n : Nat) : Nat :=
  let q := n / 10
  let r := n % 10
  if r > 5 then q + 1
  else if r < 5 then q
  else if q % 2 = 1 then q + 1 else q

/-- Modelled from the spec's words, for comparison with `formatCost`: the
exact decimal value `totalTokens * 15 / 10^7` formatted to six decimal
places, rounding the 7th decimal digit to nearest, ties to even. -/
def formatCostSpecExact (totalTokens : Nat) : String :=
  let micro := roundHalfEvenDiv10 (totalTokens * 15)
  "$" ++ toString (micro / 1000000) ++ "." ++ padLeftZeros (toString (micro % 1000000)) 6

/-- Modelled from the spec's words, for comparison with `formatCost`: the
exact decimal value `totalTokens * 15 / 10^7` formatted to six decimal
places with the alternative convention that decimal ties round up. -/
def formatCostSpecExactUp (totalTokens : Nat) : String :=
  let micro := (totalTokens * 15 + 5) / 10
  "$" ++ toString (micro / 1000000) ++ "." ++ padLeftZeros (toString (micro % 1000000)) 6

/-- The fixed system message content of the completion call. -/
def system_persona : String :=
  "You are a concise AI tutor. Keep explanations SHORT and TO THE POINT. Always break longer answers into short paragraphs for readability. No fluff or unnecessary details."

/-- The user message content: the f-string
`f"{config['instruction']}\n\nTopic: {request.topic}\n\nBe concise and clear. Use paragraph breaks for readability."`. -/
def buildUserPrompt (instruction topic : String) : String :=
  instruction ++ "\n\nTopic: " ++ topic ++ "\n\nBe concise and clear. Use paragraph breaks for readability."

/-- The arguments the handler passes to `client.chat.completions.create`. -/
structure CompletionCall where
  model : String
  system_content : String
  user_content : String
  max_tokens : Nat
  temperature : Rat
deriving DecidableEq

/-- Oracle for the external completion call: what the API would do if
invoked.  `success text totalTokens` models a normal response whose
`choices[0].message.content` is `text` and whose `usage.total_tokens` is
`totalTokens`; `failure msg` models any raised exception `e` with
`str(e) = msg`. -/
inductive CompletionOutcome where
  | success (text : String) (totalTokens : Nat)
  | failure (msg : String)
deriving DecidableEq

/-- The JSON body returned on the 200 path of `/explain`. -/
structure ExplainResponse where
  success : Bool
  topic : String
  complexity : String
  explanation : String
  tokens_used : Nat
  model : String
  cost : String
deriving DecidableEq

/-- Result of the `/explain` handler: a 200 body, or a raised
`HTTPException(status_code, detail)`. -/
inductive ExplainResult where
  | ok (resp : ExplainResponse)
  | httpError (status : Nat) (detail : String)
deriving DecidableEq

/-- Full observable outcome of one `/explain` request: the HTTP result and
the completion call attempted, if any (`none` = no network call). -/
structure ExplainOutcome where
  result : ExplainResult
  apiCall : Option CompletionCall
deriving DecidableEq

/-- The `POST /explain` handler `explain_topic` of src/backend/main.py:
check the client sentinel, validate the topic, resolve the preset, build
the messages, invoke the completion call (its behaviour given by the
`upstream` oracle) and shape the response; any exception from the call is
surfaced as a 500 with the error text. -/
def explain_topic (clientConfigured : Bool) (upstream : CompletionOutcome)
    (request : ExplainRequest) : ExplainOutcome :=
  if clientConfigured = false then
    { result := .httpError 500 "API key not configured. Please set OPENAI_API_KEY in .env file"
      apiCall := none }
  else if request.topic = "" ∨ (pyStrip request.topic).length = 0 then
    { result := .httpError 400 "Please provide a topic to explain"
      apiCall := none }
  else
    let config := getConfig request.complexity
    let call : CompletionCall :=
      { model := "gpt-4o-mini"
        system_content := system_persona
        user_content := buildUserPrompt config.instruction request.topic
        max_tokens := config.max_tokens
        temperature := config.temperature }
    match upstream with
    | .success text totalTokens =>
      { result := .ok
          { success := true
            topic := request.topic
            complexity := request.complexity
            explanation := pyStrip text
            tokens_used := totalTokens
            model := "GPT-4o-mini"
            cost := formatCost totalTokens }
        apiCall := some call }
    | .failure msg =>
      { result := .httpError 500 ("Error: " ++ msg)
        apiCall := some call }

/-- The JSON body returned by `GET /health`. -/
structure HealthResponse where
  status : String
  api : String
  model : String
deriving DecidableEq

/-- The `GET /health` handler of src/backend/main.py.  It is a pure
function of the client sentinel alone: it takes no completion oracle, so it
cannot call the external API. -/
def health (clientConfigured : Bool) : HealthResponse :=
  { status := "healthy"
    api := if clientConfigured then "connected" else "no API key"
    model := "GPT-4o-mini" }

/-- Projection: the 200 body of a result, if it is one. -/
def successResponse : ExplainResult → Option ExplainResponse
  | .ok resp => some resp
  | .httpError _ _ => none

/-- A string of length zero is the empty string. -/
theorem string_eq_empty_of_length_eq_zero {s : String} (h : s.length = 0) : s = "" := by
  cases s with
  | mk data =>
    cases data with
    | nil => rfl
    | cons c cs => simp [String.length] at h

/-- If the stripped topic is nonempty, the handler's validation test is false. -/
theorem topic_check_false {t : String} (h : pyStrip t ≠ "") :
    ¬(t = "" ∨ (pyStrip t).length = 0) := by
  rintro (h1 | h1)
  · subst h1
    exact h rfl
  · exact h (string_eq_empty_of_length_eq_zero h1)

/-- With a configured client and a nonempty stripped topic, the handler
invokes the completion call with exactly these arguments, whatever the
upstream outcome. -/
theorem explain_topic_apiCall (upstream : CompletionOutcome) (req : ExplainRequest)
    (h : pyStrip req.topic ≠ "") :
    (explain_topic true upstream req).apiCall =
      some { model := "gpt-4o-mini"
             system_content := system_persona
             user_content := buildUserPrompt (getConfig req.complexity).instruction req.topic
             max_tokens := (getConfig req.complexity).max_tokens
             temperature := (getConfig req.complexity).temperature } := by
  unfold explain_topic
  rw [if_neg (show ¬(true = false) by decide), if_neg (topic_check_false h)]
  cases upstream with
  | success text totalTokens => rfl
  | failure msg => rfl

/-- C1 counterexample: with the credential unset (client sentinel null) and
an empty topic, `POST /explain` returns 500, not 400 — the claimed 400 does
not hold "regardless of any other state", because the client check runs
before the topic check. -/
theorem c1_empty_topic_counterexample :
    (explain_topic false (.failure "boom") { topic := "" }).result =
      .httpError 500 "API key not configured. Please set OPENAI_API_KEY in .env file" ∧
    (explain_topic false (.failure "boom") { topic := "" }).result ≠
      .httpError 400 "Please provide a topic to explain" := by decide

/-- C1 (amended): provided the completion client is configured, every
request whose topic strips to the empty string gets status 400 with detail
"Please provide a topic to explain", regardless of complexity and of the
upstream outcome, and no completion call is attempted. -/
theorem c1_empty_topic_400 (upstream : CompletionOutcome) (req : ExplainRequest)
    (h : pyStrip req.topic = "") :
    explain_topic true upstream req =
      { result := .httpError 400 "Please provide a topic to explain"
        apiCall := none } := by
  unfold explain_topic
  rw [if_neg (show ¬(true = false) by decide),
    if_pos (Or.inr (show (pyStrip req.topic).length = 0 by rw [h]; rfl))]

/-- C1 witness: the amended theorem applied at a whitespace-only topic with
a non-default complexity. -/
theorem c1_empty_topic_400_witness :
    pyStrip "   " = "" ∧
    explain_topic true (.failure "boom") { topic := "   ", complexity := "expert" } =
      { result := .httpError 400 "Please provide a topic to explain"
        apiCall := none } :=
  ⟨by decide, c1_empty_topic_400 (.failure "boom")
    { topic := "   ", complexity := "expert" } (by decide)⟩

/-- C2: when the client sentinel is null, every `POST /explain` request
returns 500 with the fixed configuration-error detail and attempts no
completion call, whatever the request and upstream oracle. -/
theorem c2_no_api_key (upstream : CompletionOutcome) (req : ExplainRequest) :
    explain_topic false upstream req =
      { result := .httpError 500 "API key not configured. Please set OPENAI_API_KEY in .env file"
        apiCall := none } := by
  unfold explain_topic
  rw [if_pos rfl]

/-- C3 counterexample: at 9 total tokens the exact decimal value
`9 * 0.0000015 = 0.0000135` formats to six decimal places as "$0.000014"
under both decimal tie conventions (ties to even and ties up), but the
binary64 product the program computes lies strictly below the
`0.0000135` midpoint, so the cost field of the success response is
"$0.000013". -/
theorem c3_cost_counterexample :
    (explain_topic true (.success "ok" 9) { topic := "x" }).result =
      .ok { success := true, topic := "x", complexity := "eli5",
            explanation := "ok", tokens_used := 9, model := "GPT-4o-mini",
            cost := "$0.000013" } ∧
    formatCostSpecExact 9 = "$0.000014" ∧
    formatCostSpecExactUp 9 = "$0.000014" ∧
    ("$0.000013" : String) ≠ "$0.000014" := by decide

/-- C3 (amended): every successful response carries cost = "$" ++ the
binary64 product tokens_used * 0.0000015 correctly rounded to exactly six
decimal places; this agrees with the exact-decimal six-place formatting at
every even token count up to 1000 (the exact product then has no tie in
the 7th decimal digit), and in particular 80 total tokens yield
"$0.000120". -/
theorem c3_cost_six_decimals (text : String) (tokens : Nat) (req : ExplainRequest)
    (h : pyStrip req.topic ≠ "") (_htok : tokens < 2 ^ 53) :
    (explain_topic true (.success text tokens) req).result =
      .ok { success := true, topic := req.topic, complexity := req.complexity,
            explanation := pyStrip text, tokens_used := tokens, model := "GPT-4o-mini",
            cost := "$" ++ toString (roundRatHalfEven (prodDouble tokens * 1000000) (2 ^ 72) / 1000000) ++ "."
              ++ padLeftZeros (toString (roundRatHalfEven (prodDouble tokens * 1000000) (2 ^ 72) % 1000000)) 6 } ∧
    formatCost 80 = "$0.000120" ∧
    ((List.range 1001).all fun t => (t % 2 == 1) || (formatCost t == formatCostSpecExact t)) = true := by
  refine ⟨?_, by decide, by decide⟩
  unfold explain_topic
  rw [if_neg (show ¬(true = false) by decide), if_neg (topic_check_false h)]
  rfl

/-- C3 witness: the amended cost theorem applied at 80 tokens. -/
theorem c3_cost_six_decimals_witness :
    pyStrip "hi" ≠ "" ∧ (80 : Nat) < 2 ^ 53 ∧
    ((explain_topic true (.success "fine" 80) { topic := "hi" }).result =
      .ok { success := true, topic := "hi", complexity := "eli5",
            explanation := pyStrip "fine", tokens_used := 80, model := "GPT-4o-mini",
            cost := "$" ++ toString (roundRatHalfEven (prodDouble 80 * 1000000) (2 ^ 72) / 1000000) ++ "."
              ++ padLeftZeros (toString (roundRatHalfEven (prodDouble 80 * 1000000) (2 ^ 72) % 1000000)) 6 } ∧
    formatCost 80 = "$0.000120" ∧
    ((List.range 1001).all fun t => (t % 2 == 1) || (formatCost t == formatCostSpecExact t)) = true) :=
  ⟨by decide, by decide, c3_cost_six_decimals "fine" 80 { topic := "hi" } (by decide) (by decide)⟩

/-- C4: preset resolution is total with no error path — any complexity key
outside the five fixed ones resolves to the `eli5` preset, the completion
call made for such a request is identical to the one made for the same
request with complexity "eli5", and a request built without a complexity
value carries the default "eli5". -/
theorem c4_unrecognized_falls_back (upstream : CompletionOutcome) (req : ExplainRequest)
    (h : req.complexity ∉ ["eli5", "eli10", "teen", "college", "expert"])
    (htopic : pyStrip req.topic ≠ "") :
    getConfig req.complexity = eli5_config ∧
    (explain_topic true upstream req).apiCall =
      (explain_topic true upstream { topic := req.topic, complexity := "eli5" }).apiCall ∧
    (∀ t : String, ({ topic := t } : ExplainRequest).complexity = "eli5") := by
  have h1 : req.complexity ≠ "eli5" := fun e => h (by rw [e]; decide)
  have h2 : req.complexity ≠ "eli10" := fun e => h (by rw [e]; decide)
  have h3 : req.complexity ≠ "teen" := fun e => h (by rw [e]; decide)
  have h4 : req.complexity ≠ "college" := fun e => h (by rw [e]; decide)
  have h5 : req.complexity ≠ "expert" := fun e => h (by rw [e]; decide)
  have hg : getConfig req.complexity = eli5_config := by
    unfold getConfig
    rw [if_neg h1, if_neg h2, if_neg h3, if_neg h4, if_neg h5]
  refine ⟨hg, ?_, fun t => rfl⟩
  rw [explain_topic_apiCall upstream req htopic,
    explain_topic_apiCall upstream { topic := req.topic, complexity := "eli5" } htopic, hg]
  rfl

/-- C4 witness: the fallback theorem applied at the unrecognized key
"bogus". -/
theorem c4_unrecognized_falls_back_witness :
    "bogus" ∉ ["eli5", "eli10", "teen", "college", "expert"] ∧
    pyStrip "x" ≠ "" ∧
    (getConfig "bogus" = eli5_config ∧
    (explain_topic true (.failure "e") { topic := "x", complexity := "bogus" }).apiCall =
      (explain_topic true (.failure "e") { topic := "x", complexity := "eli5" }).apiCall ∧
    (∀ t : String, ({ topic := t } : ExplainRequest).complexity = "eli5")) :=
  ⟨by decide, by decide, c4_unrecognized_falls_back (.failure "e")
    { topic := "x", complexity := "bogus" } (by decide) (by decide)⟩

/-- C5: the scenario request {topic "black holes", complexity "eli5"} with
a configured client and a completion returning "Imagine..." with 80 total
tokens yields the 200 body with success true, the echoed topic and
complexity, explanation "Imagine...", tokens_used 80 and cost "$0.000120". -/
theorem c5_scenario :
    (explain_topic true (.success "Imagine..." 80)
        { topic := "black holes", complexity := "eli5" }).result =
      .ok { success := true, topic := "black holes", complexity := "eli5",
            explanation := "Imagine...", tokens_used := 80,
            model := "GPT-4o-mini", cost := "$0.000120" } := by decide

/-- C6: any exception from the completion call surfaces as status 500 with
detail "Error: " followed by the original message, uniformly in the
message, and the result carries no 200 body (no explanation content). -/
theorem c6_upstream_error (msg : String) (req : ExplainRequest)
    (h : pyStrip req.topic ≠ "") :
    (explain_topic true (.failure msg) req).result = .httpError 500 ("Error: " ++ msg) ∧
    successResponse (explain_topic true (.failure msg) req).result = none := by
  unfold explain_topic
  rw [if_neg (show ¬(true = false) by decide), if_neg (topic_check_false h)]
  exact ⟨rfl, rfl⟩

/-- C6 witness: the upstream-error theorem applied at a concrete message. -/
theorem c6_upstream_error_witness :
    pyStrip "quantum" ≠ "" ∧
    ((explain_topic true (.failure "rate limit exceeded") { topic := "quantum" }).result =
      .httpError 500 ("Error: " ++ "rate limit exceeded") ∧
    successResponse
      (explain_topic true (.failure "rate limit exceeded") { topic := "quantum" }).result =
      none) :=
  ⟨by decide, c6_upstream_error "rate limit exceeded" { topic := "quantum" } (by decide)⟩

/-- C7: `GET /health` always returns status "healthy" and the fixed model
name, with api "connected" exactly when the client was configured and
"no API key" exactly otherwise; the handler takes no completion oracle, so
it cannot call the external API. -/
theorem c7_health (clientConfigured : Bool) :
    (health clientConfigured).status = "healthy" ∧
    (health clientConfigured).model = "GPT-4o-mini" ∧
    ((health clientConfigured).api = "connected" ↔ clientConfigured = true) ∧
    ((health clientConfigured).api = "no API key" ↔ clientConfigured = false) := by
  cases clientConfigured <;> decide

/-- C8: for every validated request the user prompt passed to the
completion call is exactly the preset's instruction, then the literal
topic, then the fixed closing directive, and the system message is the
fixed persona string on every call. -/
theorem c8_prompt_construction (upstream : CompletionOutcome) (req : ExplainRequest)
    (h : pyStrip req.topic ≠ "") :
    (explain_topic true upstream req).apiCall =
      some { model := "gpt-4o-mini"
             system_content := system_persona
             user_content := (getConfig req.complexity).instruction ++ "\n\nTopic: "
               ++ req.topic ++ "\n\nBe concise and clear. Use paragraph breaks for readability."
             max_tokens := (getConfig req.complexity).max_tokens
             temperature := (getConfig req.complexity).temperature } := by
  rw [explain_topic_apiCall upstream req h]
  rfl

/-- C8 witness: the prompt theorem applied at a concrete request. -/
theorem c8_prompt_construction_witness :
    pyStrip "math" ≠ "" ∧
    (explain_topic true (.success "ok" 5) { topic := "math", complexity := "teen" }).apiCall =
      some { model := "gpt-4o-mini"
             system_content := system_persona
             user_content := (getConfig "teen").instruction ++ "\n\nTopic: "
               ++ "math" ++ "\n\nBe concise and clear. Use paragraph breaks for readability."
             max_tokens := (getConfig "teen").max_tokens
             temperature := (getConfig "teen").temperature } :=
  ⟨by decide, c8_prompt_construction (.success "ok" 5)
    { topic := "math", complexity := "teen" } (by decide)⟩

/-- C9: in every successful response the explanation is the upstream text
with leading and trailing whitespace stripped, and it equals the raw
upstream text exactly when that text has no surrounding whitespace. -/
theorem c9_explanation_stripped (text : String) (tokens : Nat) (req : ExplainRequest)
    (h : pyStrip req.topic ≠ "") :
    Option.map ExplainResponse.explanation
        (successResponse (explain_topic true (.success text tokens) req).result) =
      some (pyStrip text) ∧
    (Option.map ExplainResponse.explanation
        (successResponse (explain_topic true (.success text tokens) req).result) =
      some text ↔ pyStrip text = text) := by
  have hmain : Option.map ExplainResponse.explanation
      (successResponse (explain_topic true (.success text tokens) req).result) =
      some (pyStrip text) := by
    unfold explain_topic
    rw [if_neg (show ¬(true = false) by decide), if_neg (topic_check_false h)]
    rfl
  refine ⟨hmain, ?_⟩
  rw [hmain]
  constructor
  · intro h2
    exact Option.some.inj h2
  · intro h2
    rw [h2]

/-- C9 witness: the stripping theorem applied at upstream text with
surrounding whitespace. -/
theorem c9_explanation_stripped_witness :
    pyStrip "cells" ≠ "" ∧
    (Option.map ExplainResponse.explanation
        (successResponse (explain_topic true (.success "  body  " 7) { topic := "cells" }).result) =
      some (pyStrip "  body  ") ∧
    (Option.map ExplainResponse.explanation
        (successResponse (explain_topic true (.success "  body  " 7) { topic := "cells" }).result) =
      some "  body  " ↔ pyStrip "  body  " = "  body  ")) :=
  ⟨by decide, c9_explanation_stripped "  body  " 7 { topic := "cells" } (by decide)⟩

/-- C10: every successful response echoes the request's topic and
complexity verbatim — the topic untrimmed and an unrecognized complexity
key as sent, not rewritten to "eli5". -/
theorem c10_echo_verbatim (text : String) (tokens : Nat) (req : ExplainRequest)
    (h : pyStrip req.topic ≠ "") :
    Option.map (fun r => (ExplainResponse.topic r, ExplainResponse.complexity r))
        (successResponse (explain_topic true (.success text tokens) req).result) =
      some (req.topic, req.complexity) := by
  unfold explain_topic
  rw [if_neg (show ¬(true = false) by decide), if_neg (topic_check_false h)]
  rfl

/-- C10 witness: the echo theorem applied at a topic with surrounding
whitespace and an unrecognized complexity key. -/
theorem c10_echo_verbatim_witness :
    pyStrip "  gravity  " ≠ "" ∧
    Option.map (fun r => (ExplainResponse.topic r, ExplainResponse.complexity r))
        (successResponse (explain_topic true (.success "t" 3)
          { topic := "  gravity  ", complexity := "bogus" }).result) =
      some ("  gravity  ", "bogus") :=
  ⟨by decide, c10_echo_verbatim "t" 3
    { topic := "  gravity  ", complexity := "bogus" } (by decide)⟩
